import Mathlib

/-
Verification of the chess-analysis backend (src/backend/main.py) against its
natural-language specification.  The Python source is shallowly embedded:
pure computations become Lean functions, the filesystem and the external
chess engine become explicit oracle parameters, HTTP exceptions become an
Except error channel, and engine-process creation is recorded as an explicit
event trace.  Python floats are modelled by exact rationals.
-/

namespace ChessBackend

/-- Python truthiness of an optional string: None and the empty string are
falsy, every other string is truthy (models `if request.pgn:` etc.). -/
def truthy : Option String → Bool
  | none => false
  | some s => !(s == "")

/-- The string held by an optional string, with None read as the empty
string (used where Python dereferences a value it has checked truthy). -/
def strOf : Option String → String
  | none => ""
  | some s => s

/-! ## Engine locator (find_stockfish_path, main.py lines 31-85) -/

/-- Abstract filesystem oracle: `isFile` models `os.path.isfile`, `which`
models `shutil.which`.  The locator only probes; it never mutates. -/
structure FileSystem where
  isFile : String → Bool
  which : String → Option String

/-- Candidate paths for macOS (main.py lines 46-51). -/
def macPaths : List String :=
  ["/opt/homebrew/bin/stockfish", "/usr/local/bin/stockfish",
   "/usr/bin/stockfish", "/opt/local/bin/stockfish"]

/-- Candidate paths for Linux (main.py lines 53-59). -/
def linuxPaths : List String :=
  ["/usr/bin/stockfish", "/usr/games/stockfish", "/usr/local/bin/stockfish",
   "/snap/bin/stockfish", "./stockfish"]

/-- Candidate paths for Windows (main.py lines 61-65). -/
def windowsPaths : List String :=
  ["C:\\stockfish\\stockfish.exe", "stockfish.exe", ".\\stockfish.exe"]

/-- Platform-specific candidate list; an unknown platform gets the empty
list (main.py lines 41-65). -/
def possiblePaths (system : String) : List String :=
  if system == "darwin" then macPaths
  else if system == "linux" then linuxPaths
  else if system == "windows" then windowsPaths
  else []

/-- Embedding of `find_stockfish_path` (main.py lines 31-85): environment
override first (used when truthy and an existing file), then the first
existing file among the platform candidates, then a PATH search, else None. -/
def find_stockfish_path (env : Option String) (fs : FileSystem)
    (system : String) : Option String :=
  if truthy env && fs.isFile (strOf env) then env
  else
    match (possiblePaths system).find? fs.isFile with
    | some p => some p
    | none => fs.which ("stockfish")

/-! ## Position resolver (main.py lines 162-176) -/

/-- Abstract board, modelling the aspects of chess.Board the backend relies
on: whose turn it is and the stack of moves pushed so far.  chess.Board.push
appends the move and toggles the side to move. -/
structure Board where
  whiteToMove : Bool
  moveStack : List String
  deriving DecidableEq, Repr

/-- Standard initial chess position: white to move, empty move stack.
This is the starting board of a game whose PGN carries no setup headers. -/
def Board.start : Board := ⟨true, []⟩

/-- Models `board.push(move)`: record the move, toggle the turn. -/
def Board.push (b : Board) (m : String) : Board :=
  ⟨!b.whiteToMove, b.moveStack ++ [m]⟩

/-- Models `board.fen()`: a canonical textual export of the position.  The
side to move and the move history determine the exported text. -/
def Board.fen (b : Board) : String :=
  (if b.whiteToMove then "w " else "b ") ++ String.intercalate (" ") b.moveStack

/-- A parsed game: its starting position together with the mainline move
sequence (models the result of `chess.pgn.read_game`).  The starting
position is the one the FEN/SetUp headers describe when they are present
(it may have black to move) and the standard initial position otherwise. -/
structure Game where
  startBoard : Board
  moves : List String
  deriving DecidableEq, Repr

/-- Models `game.board()`: the starting position of this game, honoring
any setup headers. -/
def Game.board (g : Game) : Board := g.startBoard

/-- A PGN parser oracle: models `chess.pgn.read_game`, which returns None
on input it cannot parse as a game record. -/
def PgnReader := String → Option Game

/-- The replay loop of main.py lines 169-171: start from `game.board()`
and push every mainline move. -/
def replayGame (g : Game) : Board :=
  g.moves.foldl Board.push g.board

/-! ## Evaluation normalizer (main.py lines 181-204) -/

/-- Raw engine evaluation dictionary: a type tag and an integer value
(models `stockfish.get_evaluation()`). -/
structure RawEval where
  type : String
  value : Int
  deriving DecidableEq, Repr

/-- Everything the three engine queries of one request return: the
evaluation (possibly absent), the best move (possibly absent), and the
candidate list from `get_top_moves(3)`. -/
structure EngineOutput where
  evaluation : Option RawEval
  bestMove : Option String
  topMoves : List String
  deriving DecidableEq, Repr

/-- Engine oracle: maps the FEN the backend sets to the raw output of the
three queries.  The engine is a black box to this service. -/
def Engine := String → EngineOutput

/-- Normalized response returned to the client (model of AnalysisResponse;
the float field is modelled by an exact rational). -/
structure AnalysisResponse where
  evaluation : ℚ
  best_move : String
  principal_variation : List String
  mate_in : Option Int
  deriving DecidableEq, Repr

/-- Embedding of the score conversion (main.py lines 186-193): returns the
pair (eval_score, mate_in).  A centipawn score divides by 100; a mate score
keeps the signed distance and saturates the score to plus or minus 10;
anything else (including an absent evaluation) keeps the defaults 0, None. -/
def convertEvaluation (evaluation : Option RawEval) : ℚ × Option Int :=
  match evaluation with
  | some ev =>
    if ev.type == "cp" then ((ev.value : ℚ) / 100, none)
    else if ev.type == "mate" then
      ((if ev.value > 0 then 10 else -10), some ev.value)
    else (0, none)
  | none => (0, none)

/-- Embedding of the full normalization (main.py lines 186-204): score
conversion, best-move defaulting (`best_move or ""`), and the principal
variation taken from the top-moves list. -/
def normalize (out : EngineOutput) : AnalysisResponse :=
  let sc := convertEvaluation out.evaluation
  { evaluation := sc.1
    best_move := strOf out.bestMove
    principal_variation := out.topMoves
    mate_in := sc.2 }

/-! ## Service facade (main.py lines 119-209) -/

/-- Structured HTTP error (models fastapi.HTTPException with its status
code and detail string). -/
structure HTTPError where
  status : Nat
  detail : String
  deriving DecidableEq, Repr

/-- Python renders an HTTPException as "status: detail"; the blanket
handler interpolates that rendering into its own detail. -/
def HTTPError.str (e : HTTPError) : String :=
  toString e.status ++ ": " ++ e.detail

/-- Observable side effect of the analyze handler: creation of one engine
process instance (models `Stockfish(path=..., depth=...)`). -/
inductive Event where
  | spawnEngine (path : String) (depth : Nat)
  deriving DecidableEq, Repr

/-- Request body of POST /api/analyze (main.py lines 90-93). -/
structure AnalysisRequest where
  pgn : Option String
  fen : Option String
  depth : Nat
  deriving DecidableEq, Repr

/-- The fen-resolution block of the handler (main.py lines 162-176): a
truthy pgn is parsed and replayed (None from the parser raises 400), else a
truthy fen passes through unchanged, else 400. -/
def resolveFen (readGame : PgnReader) (req : AnalysisRequest) :
    Except HTTPError String :=
  if truthy req.pgn then
    match readGame (strOf req.pgn) with
    | none => .error ⟨400, "Invalid PGN"⟩
    | some game => .ok (replayGame game).fen
  else if truthy req.fen then .ok (strOf req.fen)
  else .error ⟨400, "Either PGN or FEN required"⟩

/-- The body of the try block of analyze_position (main.py lines 150-205):
check engine availability, create the engine instance (recorded as an
event), resolve the position, query the engine, normalize.  The event list
records the spawns that happened before the result was produced. -/
def analyzeBody (path : Option String) (readGame : PgnReader)
    (engine : Engine) (req : AnalysisRequest) :
    Except HTTPError AnalysisResponse × List Event :=
  if truthy path = false then
    (.error ⟨500, "Stockfish engine not found. Please install Stockfish first."⟩, [])
  else
    let events := [Event.spawnEngine (strOf path) req.depth]
    match resolveFen readGame req with
    | .error e => (.error e, events)
    | .ok fen => (.ok (normalize (engine fen)), events)

/-- The whole analyze_position handler (main.py lines 148-209): the try
body together with the blanket `except Exception` clause, which catches
every raised HTTPException as well and rewraps it as a 500 whose detail
interpolates the Python rendering of the caught exception. -/
def analyze_position (path : Option String) (readGame : PgnReader)
    (engine : Engine) (req : AnalysisRequest) :
    Except HTTPError AnalysisResponse × List Event :=
  match analyzeBody path readGame engine req with
  | (.ok r, evs) => (.ok r, evs)
  | (.error e, evs) =>
    (.error ⟨500, "Analysis failed: " ++ e.str⟩, evs)

/-- Response of GET /health (main.py lines 119-146). -/
structure HealthResponse where
  status : String
  message : String
  stockfish_available : Bool
  test_evaluation : Option RawEval
  deriving DecidableEq, Repr

/-- Health-test oracle: the outcome of building a depth-5 engine, playing
e2e4 and asking for an evaluation; an exception is modelled as an error
message. -/
def HealthProbe := String → Except String RawEval

/-- Embedding of health_check (main.py lines 119-146): a missing engine
path and a failed engine test are both reported as a normal error response;
the function is total, it never throws. -/
def health_check (path : Option String) (probe : HealthProbe) :
    HealthResponse :=
  if truthy path = false then
    ⟨"error", "Stockfish not found", false, none⟩
  else
    match probe (strOf path) with
    | .ok ev => ⟨"healthy", "Stockfish is working correctly", true, some ev⟩
    | .error msg => ⟨"error", "Stockfish test failed: " ++ msg, false, none⟩

/-! ## Theorems -/

/-- Replaying a move list toggles the side to move once per move: the final
turn is the starting turn exactly when the number of moves is even. -/
theorem foldl_push_whiteToMove (l : List String) (b : Board) :
    (l.foldl Board.push b).whiteToMove = (b.whiteToMove == (l.length % 2 == 0)) := by
  induction l generalizing b with
  | nil => simp
  | cons m l ih =>
    rw [List.foldl_cons, ih]
    have hpar : ((m :: l).length % 2 == 0) = !(l.length % 2 == 0) := by
      rcases Nat.mod_two_eq_zero_or_one l.length with h | h <;>
        · have h2 : (m :: l).length % 2 = 1 - l.length % 2 := by
            simp [List.length_cons]
            omega
          rw [h2, h]
          rfl
    rw [hpar]
    show ((!b.whiteToMove) == (l.length % 2 == 0)) = _
    cases b.whiteToMove <;> cases hb : (l.length % 2 == 0) <;> simp

/-- Replaying a move list pushes every move, in order, onto the stack. -/
theorem foldl_push_moveStack (l : List String) (b : Board) :
    (l.foldl Board.push b).moveStack = b.moveStack ++ l := by
  induction l generalizing b with
  | nil => simp
  | cons m l ih =>
    rw [List.foldl_cons, ih]
    simp [Board.push]

/-- C1: the claim says input errors (neither pgn nor fen, or unparsable
pgn) surface as HTTP 400.  The code raises HTTPException(400) for them, but
the blanket `except Exception` clause of analyze_position catches that very
exception and rewraps it as HTTP 500, so the client observes 500, not 400:
the explicit 400 raises show 400 was the intent and the blanket handler is
the slip.  This theorem evaluates the handler on both failing inputs and
shows the observed status is 500. -/
theorem C1_input_errors_rewrapped_as_500 :
    (∀ (readGame : PgnReader) (engine : Engine) (depth : Nat),
      (analyze_position (some ("/usr/bin/stockfish")) readGame engine
          ⟨none, none, depth⟩).1 =
        .error ⟨500, "Analysis failed: 400: Either PGN or FEN required"⟩) ∧
    (∀ (engine : Engine) (depth : Nat),
      (analyze_position (some ("/usr/bin/stockfish")) (fun _ => none) engine
          ⟨some ("not a pgn"), none, depth⟩).1 =
        .error ⟨500, "Analysis failed: 400: Invalid PGN"⟩) :=
  ⟨fun _ _ _ => rfl, fun _ _ => rfl⟩

/-- C2: a forced-mate evaluation of signed distance N normalizes to
mateIn = N with the score saturated to 10 when N is positive and to -10
when N is negative; in particular mate 3 gives score 10 with mateIn 3 and
mate -2 gives score -10 with mateIn -2. -/
theorem C2_mate_saturation :
    (∀ n : Int,
      (convertEvaluation (some ⟨"mate", n⟩)).2 = some n ∧
      (0 < n → (convertEvaluation (some ⟨"mate", n⟩)).1 = 10) ∧
      (n < 0 → (convertEvaluation (some ⟨"mate", n⟩)).1 = -10)) ∧
    normalize ⟨some ⟨"mate", 3⟩, some ("e2e4"), []⟩ = ⟨10, "e2e4", [], some 3⟩ ∧
    normalize ⟨some ⟨"mate", -2⟩, some ("e2e4"), []⟩ = ⟨-10, "e2e4", [], some (-2)⟩ := by
  refine ⟨fun n => ⟨rfl, fun h => ?_, fun h => ?_⟩, rfl, rfl⟩
  · show (if n > 0 then (10 : ℚ) else -10) = 10
    rw [if_pos h]
  · show (if n > 0 then (10 : ℚ) else -10) = -10
    rw [if_neg (by omega)]

/-- C2 witness: the saturation conclusions instantiated at mate 3 and
mate -2. -/
theorem C2_mate_saturation_witness :
    (convertEvaluation (some ⟨"mate", 3⟩)).1 = 10 ∧
    (convertEvaluation (some ⟨"mate", -2⟩)).1 = -10 :=
  ⟨(C2_mate_saturation.1 3).2.1 (by decide),
   (C2_mate_saturation.1 (-2)).2.2 (by decide)⟩

/-- C3 counterexample: the claim quantifies over every request in which
both pgn and fen are supplied, but the handler tests the pgn with Python
truthiness, so a supplied but empty pgn string falls through to the fen
branch and the result does depend on the fen: with pgn = "" fixed, two
different fens give two different responses. -/
theorem C3_counterexample_empty_pgn :
    (analyze_position (some ("/usr/bin/stockfish")) (fun _ => none)
        (fun fen => ⟨none, some fen, []⟩) ⟨some (""), some ("pos1"), 15⟩).1 ≠
    (analyze_position (some ("/usr/bin/stockfish")) (fun _ => none)
        (fun fen => ⟨none, some fen, []⟩) ⟨some (""), some ("pos2"), 15⟩).1 := by
  have h1 : (analyze_position (some ("/usr/bin/stockfish")) (fun _ => none)
      (fun fen => ⟨none, some fen, []⟩) ⟨some (""), some ("pos1"), 15⟩).1 =
      .ok ⟨0, "pos1", [], none⟩ := rfl
  have h2 : (analyze_position (some ("/usr/bin/stockfish")) (fun _ => none)
      (fun fen => ⟨none, some fen, []⟩) ⟨some (""), some ("pos2"), 15⟩).1 =
      .ok ⟨0, "pos2", [], none⟩ := rfl
  rw [h1, h2]
  intro h
  injection h with h
  exact absurd (congrArg AnalysisResponse.best_move h) (by decide)

/-- C3 amended: when the supplied pgn is non-empty, the transcript alone
determines the outcome: varying the fen field while holding the pgn fixed
never changes the result of the handler, whatever the engine and parser. -/
theorem C3_pgn_determines_result (path : Option String) (readGame : PgnReader)
    (engine : Engine) (p : String) (hp : p ≠ "") (fen1 fen2 : Option String)
    (depth : Nat) :
    analyze_position path readGame engine ⟨some p, fen1, depth⟩ =
    analyze_position path readGame engine ⟨some p, fen2, depth⟩ := by
  have ht : truthy (some p) = true := by simp [truthy, hp]
  unfold analyze_position analyzeBody resolveFen
  simp only [ht, if_true]

/-- C3 amended witness: a concrete non-empty pgn with two different fens
yields the same response. -/
theorem C3_pgn_determines_result_witness :
    analyze_position (some ("/usr/bin/stockfish"))
        (fun _ => some ⟨Board.start, ["e2e4"]⟩)
        (fun _ => ⟨none, none, []⟩) ⟨some ("1. e4"), some ("posA"), 15⟩ =
    analyze_position (some ("/usr/bin/stockfish"))
        (fun _ => some ⟨Board.start, ["e2e4"]⟩)
        (fun _ => ⟨none, none, []⟩) ⟨some ("1. e4"), some ("posB"), 15⟩ :=
  C3_pgn_determines_result _ _ _ _ (by decide) _ _ _

/-- C4: a centipawn evaluation of integer value v normalizes to the exact
score v / 100 with no mate distance; in particular 37 centipawns become
exactly 0.37. -/
theorem C4_centipawn_conversion :
    (∀ v : Int, convertEvaluation (some ⟨"cp", v⟩) = ((v : ℚ) / 100, none)) ∧
    (normalize ⟨some ⟨"cp", 37⟩, some ("d2d4"), []⟩).evaluation = 0.37 ∧
    (normalize ⟨some ⟨"cp", 37⟩, some ("d2d4"), []⟩).mate_in = none := by
  refine ⟨fun v => rfl, ?_, rfl⟩
  norm_num [normalize, convertEvaluation]

/-- C5: normalization is total by construction and degrades silently: an
absent evaluation and an evaluation of unrecognized type both give score 0
with no mate distance, a missing best move becomes the empty string, and
every engine output maps to a fully populated response record. -/
theorem C5_normalize_total :
    convertEvaluation none = (0, none) ∧
    (∀ ev : RawEval, ev.type ≠ "cp" → ev.type ≠ "mate" →
      convertEvaluation (some ev) = (0, none)) ∧
    (∀ out : EngineOutput, out.bestMove = none → (normalize out).best_move = "") ∧
    (∀ out : EngineOutput, normalize out =
      ⟨(convertEvaluation out.evaluation).1, strOf out.bestMove, out.topMoves,
       (convertEvaluation out.evaluation).2⟩) := by
  refine ⟨rfl, fun ev h1 h2 => ?_, fun out h => ?_, fun out => rfl⟩
  · have hc : (ev.type == "cp") = false := by simp [h1]
    have hm : (ev.type == "mate") = false := by simp [h2]
    simp [convertEvaluation, hc, hm]
  · simp [normalize, h, strOf]

/-- C5 witness: the degradation conclusions at an unrecognized evaluation
type and at an output with no best move. -/
theorem C5_normalize_total_witness :
    convertEvaluation (some ⟨"lowerbound", 5⟩) = (0, none) ∧
    (normalize ⟨none, none, []⟩).best_move = "" :=
  ⟨C5_normalize_total.2.1 ⟨"lowerbound", 5⟩ (by decide) (by decide),
   C5_normalize_total.2.2.1 ⟨none, none, []⟩ rfl⟩

/-- C6: the locator honors its deterministic priority order.  A truthy
environment override naming an existing file wins outright; otherwise the
override is ignored entirely and the result is the first existing file in
the platform candidate list; if no candidate exists the PATH search result
is returned as-is, so when that also fails the locator yields None instead
of failing. -/
theorem C6_locator_priority :
    (∀ (env : String) (fs : FileSystem) (sys : String),
      env ≠ "" → fs.isFile env = true →
      find_stockfish_path (some env) fs sys = some env) ∧
    (∀ (env : Option String) (fs : FileSystem) (sys : String),
      (truthy env && fs.isFile (strOf env)) = false →
      find_stockfish_path env fs sys = find_stockfish_path none fs sys) ∧
    (∀ (env : Option String) (fs : FileSystem) (sys : String) (p : String),
      (truthy env && fs.isFile (strOf env)) = false →
      (possiblePaths sys).find? fs.isFile = some p →
      find_stockfish_path env fs sys = some p) ∧
    (∀ (env : Option String) (fs : FileSystem) (sys : String),
      (truthy env && fs.isFile (strOf env)) = false →
      (possiblePaths sys).find? fs.isFile = none →
      find_stockfish_path env fs sys = fs.which ("stockfish")) ∧
    (∀ (env : Option String) (fs : FileSystem) (sys : String),
      (truthy env && fs.isFile (strOf env)) = false →
      (possiblePaths sys).find? fs.isFile = none →
      fs.which ("stockfish") = none →
      find_stockfish_path env fs sys = none) := by
  refine ⟨fun env fs sys h1 h2 => ?_, fun env fs sys h => ?_,
    fun env fs sys p h hfind => ?_, fun env fs sys h hfind => ?_,
    fun env fs sys h hfind hwhich => ?_⟩
  · simp [find_stockfish_path, truthy, strOf, h1, h2]
  · have h0 : (truthy (none : Option String) && fs.isFile (strOf none)) = false := by
      simp [truthy]
    simp only [find_stockfish_path, h, h0, Bool.false_eq_true, if_false]
  · simp [find_stockfish_path, h, hfind]
  · simp [find_stockfish_path, h, hfind]
  · simp [find_stockfish_path, h, hfind, hwhich]

/-- C6 witness: the override wins on a filesystem where only the override
path exists, and all probes failing yields None. -/
theorem C6_locator_priority_witness :
    find_stockfish_path (some ("/opt/sf")) ⟨fun s => s == "/opt/sf", fun _ => none⟩
      ("linux") = some ("/opt/sf") ∧
    find_stockfish_path none ⟨fun _ => false, fun _ => none⟩ ("linux") = none :=
  ⟨C6_locator_priority.1 ("/opt/sf") ⟨fun s => s == "/opt/sf", fun _ => none⟩
      ("linux") (by decide) (by decide),
   C6_locator_priority.2.2.2.2 none ⟨fun _ => false, fun _ => none⟩ ("linux")
      (by decide) (by decide) rfl⟩

/-- C7: with no engine path cached, the health check returns a normal
error payload with stockfish_available = false (it is a total function, it
cannot throw), and the analyze handler returns a structured HTTP 500 error
rather than crashing the process. -/
theorem C7_engine_unavailable_degrades :
    (∀ probe : HealthProbe,
      health_check none probe = ⟨"error", "Stockfish not found", false, none⟩) ∧
    (∀ (readGame : PgnReader) (engine : Engine) (req : AnalysisRequest),
      analyze_position none readGame engine req =
        (.error ⟨500,
          "Analysis failed: 500: Stockfish engine not found. Please install Stockfish first."⟩,
         [])) :=
  ⟨fun _ => rfl, fun _ _ _ => rfl⟩

/-- C8 counterexample: the claim says no engine instance is created on
InvalidInput error paths, but the handler constructs the Stockfish instance
before resolving the input, so a request with neither pgn nor fen fails
with an input error only after one engine spawn has happened. -/
theorem C8_counterexample_spawn_before_validation :
    analyze_position (some ("/usr/bin/stockfish")) (fun _ => none)
        (fun _ => ⟨none, none, []⟩) ⟨none, none, 15⟩ =
      (.error ⟨500, "Analysis failed: 400: Either PGN or FEN required"⟩,
       [Event.spawnEngine ("/usr/bin/stockfish") 15]) := rfl

/-- C8 amended: discovery failures (EngineUnavailable) are detected before
any spawn, so those runs create no engine instance; but every
input-resolution failure happens after exactly one engine instance has
already been created. -/
theorem C8_spawn_ordering :
    (∀ (readGame : PgnReader) (engine : Engine) (req : AnalysisRequest),
      (analyze_position none readGame engine req).2 = []) ∧
    (∀ (readGame : PgnReader) (engine : Engine) (req : AnalysisRequest)
       (p : String) (e : HTTPError), p ≠ "" →
      resolveFen readGame req = .error e →
      analyze_position (some p) readGame engine req =
        (.error ⟨500, "Analysis failed: " ++ e.str⟩,
         [Event.spawnEngine p req.depth])) := by
  refine ⟨fun _ _ _ => rfl, fun readGame engine req p e hp hres => ?_⟩
  have ht : truthy (some p) = true := by simp [truthy, hp]
  simp [analyze_position, analyzeBody, ht, hres, strOf]

/-- C8 amended witness: a concrete missing-input request spawns exactly one
engine before failing. -/
theorem C8_spawn_ordering_witness :
    analyze_position (some ("/usr/bin/stockfish")) (fun _ => none)
        (fun _ => ⟨none, none, []⟩) ⟨none, none, 7⟩ =
      (.error ⟨500, "Analysis failed: " ++
         HTTPError.str ⟨400, "Either PGN or FEN required"⟩⟩,
       [Event.spawnEngine ("/usr/bin/stockfish") 7]) :=
  C8_spawn_ordering.2 _ _ _ _ _ (by decide) rfl

/-- C9 counterexample: the claim says the side to move after replaying any
valid transcript matches the parity of its half-move count (white when
even).  But `chess.pgn.read_game` accepts setup games whose FEN/SetUp
headers give `game.board()` a black-to-move starting position: a valid
setup transcript with an empty mainline has an even (zero) half-move count
yet black to move after replay. -/
theorem C9_counterexample_setup_game :
    ¬ ((replayGame ⟨⟨false, []⟩, []⟩).whiteToMove = true ↔
       (⟨⟨false, []⟩, []⟩ : Game).moves.length % 2 = 0) := by decide

/-- C9 amended: replay pushes every mainline move onto the starting
position taken from the headers of the game (no partial replay), and the
resulting side to move is the starting side flipped once per half-move; in
particular, for every game that starts from the standard initial position
(no setup headers), the side to move is white exactly when the half-move
count is even.  The resolver exports the fully replayed position as the
canonical board state. -/
theorem C9_replay_from_header_start :
    (∀ g : Game,
      (replayGame g).moveStack = g.board.moveStack ++ g.moves ∧
      (replayGame g).whiteToMove =
        (g.board.whiteToMove == (g.moves.length % 2 == 0))) ∧
    (∀ g : Game, g.board = Board.start →
      (replayGame g).moveStack = g.moves ∧
      ((replayGame g).whiteToMove = true ↔ g.moves.length % 2 = 0)) ∧
    (∀ (readGame : PgnReader) (req : AnalysisRequest) (g : Game),
      truthy req.pgn = true → readGame (strOf req.pgn) = some g →
      resolveFen readGame req = .ok (replayGame g).fen) := by
  refine ⟨fun g => ⟨?_, ?_⟩, fun g hg => ⟨?_, ?_⟩, fun readGame req g h1 h2 => ?_⟩
  · rw [replayGame, foldl_push_moveStack]
  · rw [replayGame, foldl_push_whiteToMove]
  · rw [replayGame, foldl_push_moveStack, hg]
    simp [Board.start]
  · rw [replayGame, foldl_push_whiteToMove, hg]
    simp [Board.start]
  · simp [resolveFen, h1, h2]

/-- C9 amended witness: a three-half-move transcript from the standard
start replays all three moves leaving black to move, and the resolver
exports that replayed position. -/
theorem C9_replay_from_header_start_witness :
    ((replayGame ⟨Board.start, ["e2e4", "e7e5", "g1f3"]⟩).moveStack =
        ["e2e4", "e7e5", "g1f3"] ∧
      ((replayGame ⟨Board.start, ["e2e4", "e7e5", "g1f3"]⟩).whiteToMove = true ↔
        (["e2e4", "e7e5", "g1f3"] : List String).length % 2 = 0)) ∧
    resolveFen (fun _ => some ⟨Board.start, ["e2e4", "e7e5", "g1f3"]⟩)
        ⟨some ("1. e4 e5 2. Nf3"), none, 15⟩ =
      .ok (replayGame ⟨Board.start, ["e2e4", "e7e5", "g1f3"]⟩).fen :=
  ⟨C9_replay_from_header_start.2.1 ⟨Board.start, ["e2e4", "e7e5", "g1f3"]⟩ rfl,
   C9_replay_from_header_start.2.2 _ _ _ (by decide) rfl⟩

/-- C10: a forced-mate evaluation of value exactly 0 takes the negative
branch of the saturation: the response has mateIn = 0 and score -10. -/
theorem C10_mate_zero :
    convertEvaluation (some ⟨"mate", 0⟩) = (-10, some 0) ∧
    normalize ⟨some ⟨"mate", 0⟩, some ("e7e8"), []⟩ = ⟨-10, "e7e8", [], some 0⟩ :=
  ⟨rfl, rfl⟩

end ChessBackend
